import Mathlib

set_option maxRecDepth 40000

/-!
Verification of the ad-copy generation engine of the `adcopy` repository
(`backend/app/services/ai_service.py`, data model in `backend/app/models/ad.py`).

Python strings are embedded as `List Char`; Python dicts whose values are
JSON-shaped data are embedded as association lists over a JSON value type.
Operations that can raise in Python return `Except` with the exception text.
Nondeterministic uuid generation is modelled by an explicit stream
`ids : Nat → List Char` giving the id generated at each iteration, and the
external AI provider call and the `json.loads` decoder are passed in as
explicit collaborator parameters.
-/

/-- Characters matched by Python's whitespace class (`str.strip`, `str.split()`
and the regex class `\s`, restricted to ASCII as used by this code base). -/
def isPySpace (c : Char) : Bool :=
  c = ' ' || c = '\t' || c = '\n' || c = '\r' || c = '\x0b' || c = '\x0c'

/-- Python `str.strip()`: drop leading and trailing whitespace. -/
def pyStrip (l : List Char) : List Char :=
  ((l.dropWhile isPySpace).reverse.dropWhile isPySpace).reverse

/-- Python `str.rfind(c)` restricted to a single character: the largest index
holding `c`, or `none` where Python returns `-1`. -/
def lastIdxOf (c : Char) : List Char → Option Nat
  | [] => none
  | a :: as =>
    match lastIdxOf c as with
    | some i => some (i + 1)
    | none => if a = c then some 0 else none

/-- Python `s.split()[0]`: first whitespace-separated token of `s`, or `none`
where the Python expression raises `IndexError` (whitespace-only `s`). -/
def py_split_head (l : List Char) : Option (List Char) :=
  let r := l.dropWhile isPySpace
  if r = [] then none else some (r.takeWhile (fun c => !isPySpace c))

/-- Index of the first occurrence of `pat` in a list, as in Python `str.find`
(with `none` where Python returns `-1`). -/
def findSub (pat : List Char) : List Char → Option Nat
  | [] => if pat = [] then some 0 else none
  | c :: cs => if pat.isPrefixOf (c :: cs) then some 0 else (findSub pat cs).map (fun n => n + 1)

/-- Lower-casing of a Python string (ASCII, as used by the keyword matching). -/
def lowerList (l : List Char) : List Char := l.map Char.toLower

/-- Python's substring operator `pat in l`. -/
def containsSub (pat : List Char) (l : List Char) : Bool :=
  (findSub pat l).isSome

/-- JSON-shaped values as produced by `json.loads` and stored in variation
records. Numbers, booleans and `null` are collapsed into `jnull`: the engine
never inspects such values, it only passes them through or raises on them. -/
inductive JVal where
  | jstr (s : List Char)
  | jarr (xs : List JVal)
  | jobj (fs : List (List Char × JVal))
  | jnull

/-- A variation record: a Python dict in insertion order. -/
abbrev Variation := List (List Char × JVal)

/-- Python `dict` lookup on an association list (keys are unique in all the
dicts this code builds, so first-match lookup is faithful). -/
def jlookup (key : List Char) : List (List Char × JVal) → Option JVal
  | [] => none
  | kv :: rest => if kv.1 = key then some kv.2 else jlookup key rest

/-- Python `dict.get(key, default)`. -/
def jgetD (fs : List (List Char × JVal)) (key : List Char) (d : JVal) : JVal :=
  match jlookup key fs with
  | some v => v
  | none => d

/-- Sequential loop that collects results and propagates the first raised
exception, as a Python `for` loop that appends to an accumulator. -/
def mapExcept (f : α → Except ε β) : List α → Except ε (List β)
  | [] => Except.ok []
  | a :: as =>
    match f a with
    | Except.error e => Except.error e
    | Except.ok b =>
      match mapExcept f as with
      | Except.error e => Except.error e
      | Except.ok bs => Except.ok (b :: bs)

/-- The list held by a successful result, or `[]` on an exception. -/
def okD : Except ε (List α) → List α
  | Except.ok vs => vs
  | Except.error _ => []

/-- PlatformType from `app/models/ad.py`. -/
inductive PlatformType where
  | google_search
  | google_display
  | meta
  | tiktok
  deriving DecidableEq

/-- The `.value` string of each PlatformType member. -/
def platformValue : PlatformType → List Char
  | PlatformType.google_search => ("google_search").toList
  | PlatformType.google_display => ("google_display").toList
  | PlatformType.meta => ("meta").toList
  | PlatformType.tiktok => ("tiktok").toList

/-- ToneType from `app/models/ad.py`. -/
inductive ToneType where
  | Urgent
  | Luxury
  | Casual
  | Trustworthy
  deriving DecidableEq

/-- The `.value` string of each ToneType member. -/
def toneValue : ToneType → List Char
  | ToneType.Urgent => ("Urgent").toList
  | ToneType.Luxury => ("Luxury").toList
  | ToneType.Casual => ("Casual").toList
  | ToneType.Trustworthy => ("Trustworthy").toList

/-- One entry of the PLATFORM_LIMITS table of `app/models/ad.py`: display
label, the field table as (field name, max, count) rows in source order, and
the soft-limit flag. -/
structure PlatformSpec where
  label : List Char
  fields : List (List Char × Nat × Nat)
  soft : Bool

/-- PLATFORM_LIMITS from `app/models/ad.py` (lines 32-66). -/
def PLATFORM_LIMITS : PlatformType → PlatformSpec
  | PlatformType.google_search =>
    ⟨("Google Search (RSA)").toList,
     [((("headlines").toList), 30, 3), ((("descriptions").toList), 90, 2)], false⟩
  | PlatformType.google_display =>
    ⟨("Google Display").toList,
     [((("shortHeadline").toList), 30, 1), ((("longHeadline").toList), 90, 1),
      ((("descriptions").toList), 90, 2)], false⟩
  | PlatformType.meta =>
    ⟨("Meta (FB/IG)").toList,
     [((("primary").toList), 125, 1), ((("headline").toList), 40, 1),
      ((("description").toList), 30, 1)], true⟩
  | PlatformType.tiktok =>
    ⟨("TikTok").toList, [((("caption").toList), 100, 1)], true⟩

/-- AdGenerationRequest from `app/models/ad.py` (lines 69-76). -/
structure AdGenerationRequest where
  name : List Char
  desc : List Char
  audience : List (List Char)
  tone : ToneType
  platform : PlatformType
  variants : Nat

/-- The pydantic validation constraints on AdGenerationRequest: name 1-100
chars, desc 10-500 chars, variants in [1,5] (tone and platform well-formed by
construction of their types). -/
def validRequest (r : AdGenerationRequest) : Bool :=
  decide (1 ≤ r.name.length) && decide (r.name.length ≤ 100) &&
  decide (10 ≤ r.desc.length) && decide (r.desc.length ≤ 500) &&
  decide (1 ≤ r.variants) && decide (r.variants ≤ 5)

/-- DeepSeekService._truncate (ai_service.py lines 363-374). -/
def _truncate (text : List Char) (max_length : Nat) : List Char :=
  if text.length ≤ max_length then text
  else
    let truncated := text.take max_length
    match lastIdxOf ' ' truncated with
    | some last_space =>
      if 0 < last_space then pyStrip (truncated.take last_space) else pyStrip truncated
    | none => pyStrip truncated

/-- DeepSeekService._get_tone_angle (ai_service.py lines 341-349); the
`.get` default "Great value" is unreachable because ToneType has exactly the
four keyed members. -/
def _get_tone_angle : ToneType → List Char
  | ToneType.Urgent => ("Today only").toList
  | ToneType.Luxury => ("Premium experience").toList
  | ToneType.Casual => ("No hassle").toList
  | ToneType.Trustworthy => ("Trusted choice").toList

/-- DeepSeekService._get_proof_element (ai_service.py lines 351-355); the
`desc` parameter is unused in the source as well. -/
def _get_proof_element (name : List Char) (_desc : List Char) : List Char :=
  if name.any Char.isDigit && containsSub (("20").toList) name then
    ("Low miles. Clean title.").toList
  else ("Top-rated by customers.").toList

/-- First-alternative matcher for the offer regex of ai_service.py line 360:
the branch `\x5c$[^\s,.]+[^.]*` tried at one start position. The dollar sign
must be followed by at least one character that is not whitespace, comma or
period (taken greedily), then by the greedy run of non-period characters. -/
def matchAlt1 (l : List Char) : Option (List Char) :=
  match l with
  | [] => none
  | c :: rest =>
    if c = '$' then
      let a := rest.takeWhile (fun x => !(isPySpace x || x = ',' || x = '.'))
      if a = [] then none
      else
        let b := (rest.dropWhile (fun x => !(isPySpace x || x = ',' || x = '.'))).takeWhile
          (fun x => !(x = '.'))
        some (c :: a ++ b)
    else none

/-- Case-insensitive literal prefix test (`pat` is given lower-case). -/
def lcPrefix (pat : List Char) (l : List Char) : Bool :=
  decide (pat = (l.take pat.length).map Char.toLower)

/-- The literal alternation `mo|month|down` of the offer regex, tried in
order with IGNORECASE; the match keeps the original characters. ("month" is
unreachable after "mo", as in the source pattern, but is kept for fidelity.) -/
def tryLit (l : List Char) : Option (List Char) :=
  if lcPrefix (("mo").toList) l then some (l.take 2)
  else if lcPrefix (("month").toList) l then some (l.take 5)
  else if lcPrefix (("down").toList) l then some (l.take 4)
  else none

/-- Second-alternative matcher for the offer regex: the branch
`\d+\s?(?:mo|month|down)` tried at one start position. The digit run is taken
greedily (backtracking it cannot help: the continuation never starts with a
digit), then one optional whitespace character, then the literal alternation. -/
def matchAlt2 (l : List Char) : Option (List Char) :=
  let ds := l.takeWhile Char.isDigit
  if ds = [] then none
  else
    match l.dropWhile Char.isDigit with
    | [] => none
    | c :: rest2 =>
      if isPySpace c then (tryLit rest2).map (fun lit => ds ++ c :: lit)
      else (tryLit (c :: rest2)).map (fun lit => ds ++ lit)

/-- Python `re.search` for the offer pattern: start positions are tried left
to right, and at each position the first alternative is tried before the
second (the two are disjoint here: one needs a dollar sign, the other a
digit). -/
def regexSearchOffer : List Char → Option (List Char)
  | [] => none
  | c :: rest =>
    match matchAlt1 (c :: rest) with
    | some m => some m
    | none =>
      match matchAlt2 (c :: rest) with
      | some m => some m
      | none => regexSearchOffer rest

/-- DeepSeekService._extract_offer (ai_service.py lines 357-361). -/
def _extract_offer (desc : List Char) : List Char :=
  match regexSearchOffer desc with
  | some m => m
  | none => ("Special pricing available").toList

/-- The automotive keyword list of ai_service.py line 104. -/
def AUTOMOTIVE_KEYWORDS : List (List Char) :=
  [("car").toList, ("auto").toList, ("vehicle").toList, ("toyota").toList,
   ("honda").toList, ("ford").toList, ("camry").toList, ("dealership").toList]

/-- The e-commerce keyword list of ai_service.py line 112. -/
def ECOMMERCE_KEYWORDS : List (List Char) :=
  [("shop").toList, ("buy").toList, ("order").toList, ("shipping").toList,
   ("ecommerce").toList, ("store").toList]

/-- The automotive context paragraph returned by _get_business_context. -/
def AUTOMOTIVE_CONTEXT : List Char :=
  ("\nAUTOMOTIVE CONTEXT:\n- Emphasize reliability, financing options, warranties\n- Include mileage, year, features if available\n- Focus on local market and trade-in value\n- Use trust-building language for high-ticket purchases").toList

/-- The e-commerce context paragraph returned by _get_business_context. -/
def ECOMMERCE_CONTEXT : List Char :=
  ("\nECOMMERCE CONTEXT:  \n- Highlight product benefits and unique features\n- Include pricing, shipping, or return policies\n- Create urgency with limited offers\n- Focus on convenience and value").toList

/-- The general context paragraph returned by _get_business_context. -/
def GENERAL_CONTEXT : List Char :=
  ("\nGENERAL BUSINESS CONTEXT:\n- Focus on main value proposition\n- Highlight what makes you different\n- Include social proof when possible\n- Create clear call-to-action").toList

/-- The automotive keyword test of ai_service.py line 104: some keyword is a
substring of the lower-cased name or of the lower-cased description. -/
def autoKeywordHit (name desc : List Char) : Bool :=
  AUTOMOTIVE_KEYWORDS.any
    (fun w => containsSub w (lowerList name) || containsSub w (lowerList desc))

/-- The e-commerce keyword test of ai_service.py line 112. -/
def ecomKeywordHit (name desc : List Char) : Bool :=
  ECOMMERCE_KEYWORDS.any
    (fun w => containsSub w (lowerList name) || containsSub w (lowerList desc))

/-- DeepSeekService._get_business_context (ai_service.py lines 97-126). -/
def _get_business_context (name desc : List Char) : List Char :=
  if autoKeywordHit name desc then AUTOMOTIVE_CONTEXT
  else if ecomKeywordHit name desc then ECOMMERCE_CONTEXT
  else GENERAL_CONTEXT

/-- The audience clause of the fallback generator (ai_service.py line 286):
"For {comma-joined audience}." when the audience list is non-empty, else the
empty string. -/
def audClause (audience : List (List Char)) : List Char :=
  if audience = [] then []
  else ("For ").toList ++ List.intercalate ((", ").toList) audience ++ (".").toList

/-- The benefit component of the fallback generator (ai_service.py line 287):
`request.desc.split('.')[0] if '.' in request.desc else "Get more for less"`. -/
def fallback_benefit (desc : List Char) : List Char :=
  if '.' ∈ desc then (desc.splitOn '.').headD [] else ("Get more for less").toList

/-- One iteration of the fallback loop body of _create_fallback_variations
(ai_service.py lines 280-337) for a given generated id: derives the template
components and builds the platform-shaped record. The tiktok branch evaluates
`request.name.split()[0]`, which raises IndexError on a whitespace-only name. -/
def fallback_variation (r : AdGenerationRequest) (vid : List Char) :
    Except (List Char) Variation :=
  let angle := _get_tone_angle r.tone
  let prf := _get_proof_element r.name r.desc
  let aud := audClause r.audience
  let benefit := fallback_benefit r.desc
  let offer := _extract_offer r.desc
  match r.platform with
  | PlatformType.google_search => Except.ok
      [((("id").toList), JVal.jstr vid),
       ((("platform").toList), JVal.jstr (("google_search").toList)),
       ((("tone").toList), JVal.jstr (toneValue r.tone)),
       ((("headlines").toList), JVal.jarr
         [JVal.jstr (_truncate (r.name ++ (" — ").toList ++ angle) 30),
          JVal.jstr (_truncate benefit 30),
          JVal.jstr (_truncate ((("In Stock • ").toList) ++ toneValue r.tone) 30)]),
       ((("descriptions").toList), JVal.jarr
         [JVal.jstr (_truncate (benefit ++ (". ").toList ++ aud ++ (" ").toList ++ prf) 90),
          JVal.jstr (_truncate (offer ++ (". Visit now.").toList) 90)])]
  | PlatformType.google_display => Except.ok
      [((("id").toList), JVal.jstr vid),
       ((("platform").toList), JVal.jstr (("google_display").toList)),
       ((("tone").toList), JVal.jstr (toneValue r.tone)),
       ((("shortHeadline").toList), JVal.jstr (_truncate r.name 30)),
       ((("longHeadline").toList), JVal.jstr (_truncate (angle ++ (": ").toList ++ benefit) 90)),
       ((("descriptions").toList), JVal.jarr
         [JVal.jstr (_truncate (benefit ++ (". ").toList ++ aud) 90),
          JVal.jstr (_truncate (offer ++ (". ").toList ++ prf) 90)])]
  | PlatformType.meta => Except.ok
      [((("id").toList), JVal.jstr vid),
       ((("platform").toList), JVal.jstr (("meta").toList)),
       ((("tone").toList), JVal.jstr (toneValue r.tone)),
       ((("primary").toList), JVal.jstr
         (_truncate (benefit ++ (". ").toList ++ aud ++ (" ").toList ++ prf) 125)),
       ((("headline").toList), JVal.jstr (_truncate (r.name ++ (" — ").toList ++ angle) 40)),
       ((("description").toList), JVal.jstr
         (_truncate (if offer = [] then ("Shop now").toList else offer) 30))]
  | PlatformType.tiktok =>
    match py_split_head r.name with
    | none => Except.error (("IndexError: list index out of range").toList)
    | some tok => Except.ok
        [((("id").toList), JVal.jstr vid),
         ((("platform").toList), JVal.jstr (("tiktok").toList)),
         ((("tone").toList), JVal.jstr (toneValue r.tone)),
         ((("caption").toList), JVal.jstr
           (_truncate (angle ++ ("! ").toList ++ benefit ++ (". ").toList ++ offer
             ++ (" #").toList ++ tok) 100))]

/-- DeepSeekService._create_fallback_variations (ai_service.py lines 275-339):
one record per loop index, the id stream supplying each iteration's uuid. -/
def _create_fallback_variations (r : AdGenerationRequest) (ids : Nat → List Char) :
    Except (List Char) (List Variation) :=
  mapExcept (fun i => fallback_variation r (ids i)) (List.range r.variants)

/-- DeepSeekService._format_variation (ai_service.py lines 233-273); the
`index` parameter is unused in the source as well. AI-supplied field values
are passed through unmodified, absent fields get the fixed defaults. -/
def _format_variation (var_data : List (List Char × JVal)) (platform : PlatformType)
    (tone : List Char) (vid : List Char) (_index : Nat) : Variation :=
  match platform with
  | PlatformType.google_search =>
      [((("id").toList), JVal.jstr vid),
       ((("platform").toList), JVal.jstr (("google_search").toList)),
       ((("tone").toList), JVal.jstr tone),
       ((("headlines").toList), jgetD var_data (("headlines").toList)
         (JVal.jarr (List.replicate 3 (JVal.jstr (("Default headline").toList))))),
       ((("descriptions").toList), jgetD var_data (("descriptions").toList)
         (JVal.jarr (List.replicate 2 (JVal.jstr (("Default description").toList)))))]
  | PlatformType.google_display =>
      [((("id").toList), JVal.jstr vid),
       ((("platform").toList), JVal.jstr (("google_display").toList)),
       ((("tone").toList), JVal.jstr tone),
       ((("shortHeadline").toList), jgetD var_data (("shortHeadline").toList)
         (JVal.jstr (("Default short").toList))),
       ((("longHeadline").toList), jgetD var_data (("longHeadline").toList)
         (JVal.jstr (("Default long headline").toList))),
       ((("descriptions").toList), jgetD var_data (("descriptions").toList)
         (JVal.jarr (List.replicate 2 (JVal.jstr (("Default description").toList)))))]
  | PlatformType.meta =>
      [((("id").toList), JVal.jstr vid),
       ((("platform").toList), JVal.jstr (("meta").toList)),
       ((("tone").toList), JVal.jstr tone),
       ((("primary").toList), jgetD var_data (("primary").toList)
         (JVal.jstr (("Default primary text").toList))),
       ((("headline").toList), jgetD var_data (("headline").toList)
         (JVal.jstr (("Default headline").toList))),
       ((("description").toList), jgetD var_data (("description").toList)
         (JVal.jstr (("Default desc").toList)))]
  | PlatformType.tiktok =>
      [((("id").toList), JVal.jstr vid),
       ((("platform").toList), JVal.jstr (("tiktok").toList)),
       ((("tone").toList), JVal.jstr tone),
       ((("caption").toList), jgetD var_data (("caption").toList)
         (JVal.jstr (("Default caption #hashtag").toList)))]

/-- The code-fence extraction of _parse_ai_response (ai_service.py lines
213-218): with a "```json" marker present, the slice from just after the
marker to the next "```", where a missing closing fence reproduces Python's
`content[start:-1]`; without the marker, the whole content. -/
def extract_json_content (content : List Char) : List Char :=
  match findSub (("```json").toList) content with
  | none => content
  | some i =>
    let s := i + 7
    let rest := content.drop s
    match findSub (("```").toList) rest with
    | some j => rest.take j
    | none => (content.take (content.length - 1)).drop s

/-- The `parsed.get("variations", [])[:request.variants]` step of
_parse_ai_response (ai_service.py line 223). A non-dict `parsed` raises
(AttributeError on `.get`); an absent key yields the empty default; a
non-list value raises when sliced or iterated (the one silent case, an empty
string, slices and iterates to nothing). -/
def getVariationsSlice (parsed : JVal) (variants : Nat) : Except (List Char) (List JVal) :=
  match parsed with
  | JVal.jobj fs =>
    match jlookup (("variations").toList) fs with
    | none => Except.ok []
    | some (JVal.jarr xs) => Except.ok (xs.take variants)
    | some (JVal.jstr s) =>
      if s = [] then Except.ok [] else Except.error (("AttributeError").toList)
    | some _ => Except.error (("TypeError").toList)
  | _ => Except.error (("AttributeError").toList)

/-- The formatting loop of _parse_ai_response (ai_service.py lines 223-225):
each entry must be a dict (anything else raises at `var_data.get`), and each
formatted record receives the next generated id. -/
def formatAll (platform : PlatformType) (tone : List Char) (ids : Nat → List Char) :
    List JVal → Nat → Except (List Char) (List Variation)
  | [], _ => Except.ok []
  | JVal.jobj fs :: rest, i =>
    match formatAll platform tone ids rest (i + 1) with
    | Except.error e => Except.error e
    | Except.ok vs => Except.ok (_format_variation fs platform tone (ids i) i :: vs)
  | _ :: _, _ => Except.error (("AttributeError").toList)

/-- DeepSeekService._parse_ai_response (ai_service.py lines 206-231). The
content extraction `api_response["choices"][0]["message"]["content"]` is
modelled by an `Option` (a missing piece raises, caught by the parser's
handler); `decode` stands for `json.loads` applied to the extracted text. Any
exception inside the `try` block routes to the fallback generator; an
exception raised by that fallback call itself propagates. -/
def _parse_ai_response (r : AdGenerationRequest) (ids : Nat → List Char)
    (decode : List Char → Except Unit JVal) (contentOpt : Option (List Char)) :
    Except (List Char) (List Variation) :=
  match contentOpt with
  | none => _create_fallback_variations r ids
  | some content =>
    match decode (extract_json_content content) with
    | Except.error _ => _create_fallback_variations r ids
    | Except.ok parsed =>
      match getVariationsSlice parsed r.variants with
      | Except.error _ => _create_fallback_variations r ids
      | Except.ok vars =>
        match formatAll r.platform (toneValue r.tone) ids vars 0 with
        | Except.error _ => _create_fallback_variations r ids
        | Except.ok vs => Except.ok vs

/-- DeepSeekService.generate_ad_variations (ai_service.py lines 25-47).
`apiKeyPresent` is the truthiness of the configured credential;
`providerOutcome` is the outcome of the provider HTTP call (exception or the
extracted reply content); prompt building is a total pure function in the
source and cannot contribute an exception of its own. Any exception from the
`try` block routes to the fallback generator, whose own exception (if any)
propagates to the caller. -/
def generate_ad_variations (apiKeyPresent : Bool) (r : AdGenerationRequest)
    (ids : Nat → List Char) (providerOutcome : Except (List Char) (Option (List Char)))
    (decode : List Char → Except Unit JVal) : Except (List Char) (List Variation) :=
  if apiKeyPresent = false then _create_fallback_variations r ids
  else
    match providerOutcome with
    | Except.error _ => _create_fallback_variations r ids
    | Except.ok contentOpt =>
      match _parse_ai_response r ids decode contentOpt with
      | Except.error _ => _create_fallback_variations r ids
      | Except.ok vs => Except.ok vs

/-- Test for the string constructor of `JVal`. -/
def jvalIsStr : JVal → Bool
  | JVal.jstr _ => true
  | _ => false

/-- The exact per-platform field layout of a variation record as claimed:
field names in source order, the platform and tone echo fields, string-typed
text fields, and the required element counts of the list-valued fields. -/
def shapeOk (p : PlatformType) (toneStr : List Char) (v : Variation) : Bool :=
  match p, v with
  | PlatformType.google_search,
    [(k1, JVal.jstr _), (k2, JVal.jstr pv), (k3, JVal.jstr tv),
     (k4, JVal.jarr hs), (k5, JVal.jarr ds)] =>
    decide (k1 = ("id").toList) && decide (k2 = ("platform").toList) &&
    decide (pv = ("google_search").toList) && decide (k3 = ("tone").toList) &&
    decide (tv = toneStr) && decide (k4 = ("headlines").toList) &&
    decide (hs.length = 3) && hs.all jvalIsStr &&
    decide (k5 = ("descriptions").toList) && decide (ds.length = 2) && ds.all jvalIsStr
  | PlatformType.google_display,
    [(k1, JVal.jstr _), (k2, JVal.jstr pv), (k3, JVal.jstr tv),
     (k4, JVal.jstr _), (k5, JVal.jstr _), (k6, JVal.jarr ds)] =>
    decide (k1 = ("id").toList) && decide (k2 = ("platform").toList) &&
    decide (pv = ("google_display").toList) && decide (k3 = ("tone").toList) &&
    decide (tv = toneStr) && decide (k4 = ("shortHeadline").toList) &&
    decide (k5 = ("longHeadline").toList) && decide (k6 = ("descriptions").toList) &&
    decide (ds.length = 2) && ds.all jvalIsStr
  | PlatformType.meta,
    [(k1, JVal.jstr _), (k2, JVal.jstr pv), (k3, JVal.jstr tv),
     (k4, JVal.jstr _), (k5, JVal.jstr _), (k6, JVal.jstr _)] =>
    decide (k1 = ("id").toList) && decide (k2 = ("platform").toList) &&
    decide (pv = ("meta").toList) && decide (k3 = ("tone").toList) &&
    decide (tv = toneStr) && decide (k4 = ("primary").toList) &&
    decide (k5 = ("headline").toList) && decide (k6 = ("description").toList)
  | PlatformType.tiktok,
    [(k1, JVal.jstr _), (k2, JVal.jstr pv), (k3, JVal.jstr tv), (k4, JVal.jstr _)] =>
    decide (k1 = ("id").toList) && decide (k2 = ("platform").toList) &&
    decide (pv = ("tiktok").toList) && decide (k3 = ("tone").toList) &&
    decide (tv = toneStr) && decide (k4 = ("caption").toList)
  | _, _ => false

/-- Whether one JSON value respects a character limit: a string must be at
most `m` characters, each string element of an array must be, and values of
other shapes carry no text to measure. -/
def fieldLenOkB (m : Nat) : JVal → Bool
  | JVal.jstr s => decide (s.length ≤ m)
  | JVal.jarr xs => xs.all (fun x =>
      match x with
      | JVal.jstr s => decide (s.length ≤ m)
      | _ => true)
  | _ => true

/-- Every text field of the record respects the declared maximum that
PLATFORM_LIMITS assigns to its field name for the given platform. -/
def withinLimitsB (p : PlatformType) (v : Variation) : Bool :=
  (PLATFORM_LIMITS p).fields.all (fun fmc =>
    match jlookup fmc.1 v with
    | some j => fieldLenOkB fmc.2.1 j
    | none => true)

/-- A variation record with its id field removed, for comparing records up to
the generated id. -/
def dropId (v : Variation) : Variation :=
  v.filter (fun kv => !(decide (kv.1 = ("id").toList)))

/-- Modelled from the spec: the truncation rule exactly as the specification
sentence states it — below the limit return the text (empty for falsy input),
otherwise cut the length-limit prefix at its last space and trim, hard-cutting
only "when the prefix contains no space". It differs from the source
`_truncate` exactly when the last space of the prefix sits at index 0. -/
def truncate_as_specified (text : List Char) (max_length : Nat) : List Char :=
  if text.length ≤ max_length then text
  else
    let truncated := text.take max_length
    match lastIdxOf ' ' truncated with
    | some last_space => pyStrip (truncated.take last_space)
    | none => pyStrip truncated

/-- A fixed id stream standing for the uuid generator in concrete runs. -/
def ids0 : Nat → List Char := fun _ => ("abcd1234").toList

/-- A decoder outcome standing for `json.loads` succeeding with an object
that has no "variations" key. -/
def decEmptyObj : List Char → Except Unit JVal := fun _ => Except.ok (JVal.jobj [])

/-- A decoder outcome standing for `json.loads` raising. -/
def decErr : List Char → Except Unit JVal := fun _ => Except.error ()

/-- Concrete provider reply text used by the concrete runs. -/
def cnt0 : List Char := ("reply without fence").toList

/-- A valid request exercising the google_search fallback path. -/
def rC1w : AdGenerationRequest :=
  ⟨("Honda Camry 2020").toList, ("Reliable car for $99/month. Great deal.").toList,
   [("families").toList], ToneType.Trustworthy, PlatformType.google_search, 3⟩

/-- A valid request whose name is whitespace-only, on the tiktok platform. -/
def rC1c : AdGenerationRequest :=
  ⟨("   ").toList, ("Ten chars desc ok.").toList, [], ToneType.Urgent,
   PlatformType.tiktok, 2⟩

/-- A valid request exercising the meta fallback path. -/
def rC2w : AdGenerationRequest :=
  ⟨("Cool Gadget").toList, ("Shiny thing for happy people").toList, [],
   ToneType.Casual, PlatformType.meta, 2⟩

/-- A valid request used for the parser runs. -/
def rC4 : AdGenerationRequest :=
  ⟨("Widget Pro").toList, ("A fine tool for all uses.").toList, [],
   ToneType.Trustworthy, PlatformType.meta, 3⟩

/-- A valid request exercising the google_display fallback path. -/
def rC8w : AdGenerationRequest :=
  ⟨("Nice Shoes").toList, ("Comfortable shoes for runners").toList, [],
   ToneType.Casual, PlatformType.google_display, 2⟩

/-- A valid tiktok request whose name is a single tab character. -/
def rC8c : AdGenerationRequest :=
  ⟨("\t").toList, ("Great deal on wheels").toList, [], ToneType.Casual,
   PlatformType.tiktok, 1⟩

/-- A valid tiktok request whose name is a single space character. -/
def rC9 : AdGenerationRequest :=
  ⟨(" ").toList, ("Spacious ride for the family").toList, [], ToneType.Luxury,
   PlatformType.tiktok, 1⟩

/-- A valid request used to compare two records of one fallback call. -/
def rC10w : AdGenerationRequest :=
  ⟨("Fun Toy").toList, ("Happy fun toy for kids today").toList, [],
   ToneType.Urgent, PlatformType.meta, 2⟩

/-- An AI-supplied variations entry whose caption has 101 characters. -/
def aiVarData : List (List Char × JVal) :=
  [((("caption").toList), JVal.jstr (List.replicate 101 'a'))]


theorem length_dropWhile_le (p : Char → Bool) (l : List Char) :
    (l.dropWhile p).length ≤ l.length := by
  induction l with
  | nil => simp
  | cons a as ih =>
    by_cases h : p a
    · simp only [List.dropWhile, h]
      exact Nat.le_succ_of_le ih
    · simp [List.dropWhile, h]

theorem pyStrip_length_le (l : List Char) : (pyStrip l).length ≤ l.length := by
  unfold pyStrip
  rw [List.length_reverse]
  calc ((l.dropWhile isPySpace).reverse.dropWhile isPySpace).length
      ≤ (l.dropWhile isPySpace).reverse.length := length_dropWhile_le _ _
    _ = (l.dropWhile isPySpace).length := List.length_reverse _
    _ ≤ l.length := length_dropWhile_le _ _

theorem _truncate_length_le (text : List Char) (n : Nat) :
    (_truncate text n).length ≤ n := by
  unfold _truncate
  by_cases h : text.length ≤ n
  · simp [h]
  · simp only [h, if_false]
    have htake : (text.take n).length ≤ n := by
      simp [List.length_take]
    cases hlast : lastIdxOf ' ' (text.take n) with
    | none =>
      exact Nat.le_trans (pyStrip_length_le _) htake
    | some i =>
      by_cases hi : 0 < i
      · simp only [hi, if_true]
        calc (pyStrip ((text.take n).take i)).length
            ≤ ((text.take n).take i).length := pyStrip_length_le _
          _ ≤ (text.take n).length := by simp [List.length_take]
          _ ≤ n := htake
      · simp only [hi, if_false]
        exact Nat.le_trans (pyStrip_length_le _) htake

theorem mapExcept_isOk {f : α → Except ε β} {l : List α}
    (h : ∀ a ∈ l, ∃ b, f a = Except.ok b) : ∃ ys, mapExcept f l = Except.ok ys := by
  induction l with
  | nil => exact ⟨[], rfl⟩
  | cons a as ih =>
    obtain ⟨b, hb⟩ := h a (List.mem_cons_self a as)
    obtain ⟨ys, hys⟩ := ih (fun x hx => h x (List.mem_cons_of_mem a hx))
    exact ⟨b :: ys, by simp [mapExcept, hb, hys]⟩

theorem mapExcept_length {f : α → Except ε β} {l : List α} {ys : List β}
    (h : mapExcept f l = Except.ok ys) : ys.length = l.length := by
  induction l generalizing ys with
  | nil => simp only [mapExcept] at h; cases h; rfl
  | cons a as ih =>
    simp only [mapExcept] at h
    cases hfa : f a with
    | error e => rw [hfa] at h; cases h
    | ok b =>
      rw [hfa] at h
      cases hrec : mapExcept f as with
      | error e => rw [hrec] at h; cases h
      | ok bs =>
        rw [hrec] at h
        cases h
        simp [ih hrec]

theorem mapExcept_mem {f : α → Except ε β} {l : List α} {ys : List β}
    (h : mapExcept f l = Except.ok ys) {y : β} (hy : y ∈ ys) :
    ∃ a ∈ l, f a = Except.ok y := by
  induction l generalizing ys with
  | nil => simp only [mapExcept] at h; cases h; cases hy
  | cons a as ih =>
    simp only [mapExcept] at h
    cases hfa : f a with
    | error e => rw [hfa] at h; cases h
    | ok b =>
      rw [hfa] at h
      cases hrec : mapExcept f as with
      | error e => rw [hrec] at h; cases h
      | ok bs =>
        rw [hrec] at h
        cases h
        rcases List.mem_cons.mp hy with hb | hbs
        · exact ⟨a, List.mem_cons_self a as, by rw [hfa, hb]⟩
        · obtain ⟨x, hx, hfx⟩ := ih hrec hbs
          exact ⟨x, List.mem_cons_of_mem a hx, hfx⟩

theorem mapExcept_ok_get {f : α → Except ε β} {l : List α} {ys : List β}
    (h : mapExcept f l = Except.ok ys) :
    ∀ i (hi : i < l.length) (hi' : i < ys.length),
      f (l.get ⟨i, hi⟩) = Except.ok (ys.get ⟨i, hi'⟩) := by
  induction l generalizing ys with
  | nil => intro i hi; cases hi
  | cons a as ih =>
    simp only [mapExcept] at h
    cases hfa : f a with
    | error e => rw [hfa] at h; cases h
    | ok b =>
      rw [hfa] at h
      cases hrec : mapExcept f as with
      | error e => rw [hrec] at h; cases h
      | ok bs =>
        rw [hrec] at h
        cases h
        intro i hi hi'
        cases i with
        | zero => simpa using hfa
        | succ n =>
          exact ih hrec n (Nat.lt_of_succ_lt_succ hi) (Nat.lt_of_succ_lt_succ hi')

theorem py_split_head_isSome {l : List Char}
    (h : l.any (fun c => !isPySpace c) = true) : py_split_head l ≠ none := by
  unfold py_split_head
  obtain ⟨c, hc, hcs⟩ := List.any_eq_true.mp h
  have hne : l.dropWhile isPySpace ≠ [] := by
    intro hnil
    have := List.dropWhile_eq_nil_iff.mp hnil c hc
    simp [this] at hcs
  simp [hne]

theorem fallback_variation_isOk (r : AdGenerationRequest) (vid : List Char)
    (h : r.platform = PlatformType.tiktok → py_split_head r.name ≠ none) :
    ∃ v, fallback_variation r vid = Except.ok v := by
  cases hp : r.platform
  case google_search => exact ⟨_, by simp only [fallback_variation, hp]; rfl⟩
  case google_display => exact ⟨_, by simp only [fallback_variation, hp]; rfl⟩
  case meta => exact ⟨_, by simp only [fallback_variation, hp]; rfl⟩
  case tiktok =>
    cases hs : py_split_head r.name with
    | none => exact absurd hs (h hp)
    | some tok =>
      exact ⟨_, by simp only [fallback_variation, hp, hs]; rfl⟩

theorem fallback_variation_shape {r : AdGenerationRequest} {vid : List Char} {v : Variation}
    (h : fallback_variation r vid = Except.ok v) :
    shapeOk r.platform (toneValue r.tone) v = true := by
  cases hp : r.platform
  case google_search =>
    simp only [fallback_variation, hp] at h
    cases h
    simp [shapeOk, jvalIsStr]
  case google_display =>
    simp only [fallback_variation, hp] at h
    cases h
    simp [shapeOk, jvalIsStr]
  case meta =>
    simp only [fallback_variation, hp] at h
    cases h
    simp [shapeOk, jvalIsStr]
  case tiktok =>
    simp only [fallback_variation, hp] at h
    cases hs : py_split_head r.name with
    | none => rw [hs] at h; cases h
    | some tok =>
      rw [hs] at h
      cases h
      simp [shapeOk, jvalIsStr]

theorem fallback_variation_within {r : AdGenerationRequest} {vid : List Char} {v : Variation}
    (h : fallback_variation r vid = Except.ok v) :
    withinLimitsB r.platform v = true := by
  cases hp : r.platform
  case google_search =>
    simp only [fallback_variation, hp] at h
    cases h
    simp [withinLimitsB, PLATFORM_LIMITS, jlookup, fieldLenOkB, _truncate_length_le]
  case google_display =>
    simp only [fallback_variation, hp] at h
    cases h
    simp [withinLimitsB, PLATFORM_LIMITS, jlookup, fieldLenOkB, _truncate_length_le]
  case meta =>
    simp only [fallback_variation, hp] at h
    cases h
    simp [withinLimitsB, PLATFORM_LIMITS, jlookup, fieldLenOkB, _truncate_length_le]
  case tiktok =>
    simp only [fallback_variation, hp] at h
    cases hs : py_split_head r.name with
    | none => rw [hs] at h; cases h
    | some tok =>
      rw [hs] at h
      cases h
      simp [withinLimitsB, PLATFORM_LIMITS, jlookup, fieldLenOkB, _truncate_length_le]

theorem fallback_variation_dropId {r : AdGenerationRequest} {a b : List Char}
    {v w : Variation} (hv : fallback_variation r a = Except.ok v)
    (hw : fallback_variation r b = Except.ok w) : dropId v = dropId w := by
  cases hp : r.platform
  case google_search =>
    simp only [fallback_variation, hp] at hv hw
    cases hv; cases hw
    simp [dropId, List.filter]
  case google_display =>
    simp only [fallback_variation, hp] at hv hw
    cases hv; cases hw
    simp [dropId, List.filter]
  case meta =>
    simp only [fallback_variation, hp] at hv hw
    cases hv; cases hw
    simp [dropId, List.filter]
  case tiktok =>
    simp only [fallback_variation, hp] at hv hw
    cases hs : py_split_head r.name with
    | none => rw [hs] at hv; cases hv
    | some tok =>
      rw [hs] at hv hw
      cases hv; cases hw
      simp [dropId, List.filter]

theorem headD_modifyHead_cons {L : List (List Char)} (c : Char) (h : L ≠ []) :
    (L.modifyHead (fun xs => c :: xs)).headD [] = c :: L.headD [] := by
  cases L with
  | nil => exact absurd rfl h
  | cons x rest => rfl

theorem splitOn_headD_eq_takeWhile (l : List Char) :
    (l.splitOn '.').headD [] = l.takeWhile (fun c => !(c = '.')) := by
  induction l with
  | nil => rfl
  | cons c cs ih =>
    simp only [List.splitOn] at ih ⊢
    rw [List.splitOnP_cons]
    by_cases hc : c = '.'
    · simp [hc, List.takeWhile]
    · have hpc : (c == '.') = false := by simp [hc]
      rw [hpc]
      simp only [Bool.false_eq_true, if_false]
      rw [headD_modifyHead_cons c (List.splitOnP_ne_nil _ _), ih]
      simp [List.takeWhile, hc]

/-- C1 (amended): for every validated request such that the tiktok platform,
when selected, gets a name with at least one non-whitespace character, the
fallback generator succeeds with exactly `variants` records, each laid out
exactly as the request's platform prescribes, echoing platform and tone. -/
theorem C1_fallback_count_and_shape (r : AdGenerationRequest) (ids : Nat → List Char)
    (_hval : validRequest r = true)
    (htok : r.platform = PlatformType.tiktok → r.name.any (fun c => !isPySpace c) = true) :
    (okD (_create_fallback_variations r ids)).length = r.variants ∧
    ∀ v ∈ okD (_create_fallback_variations r ids),
      shapeOk r.platform (toneValue r.tone) v = true := by
  have hex : ∀ i ∈ List.range r.variants, ∃ b, fallback_variation r (ids i) = Except.ok b :=
    fun i _ => fallback_variation_isOk r (ids i) (fun hp => py_split_head_isSome (htok hp))
  obtain ⟨vs, hvs⟩ := mapExcept_isOk hex
  have hres : _create_fallback_variations r ids = Except.ok vs := hvs
  rw [hres]
  constructor
  · simp only [okD]
    rw [mapExcept_length hvs, List.length_range]
  · intro v hv
    simp only [okD] at hv
    obtain ⟨a, _, ha⟩ := mapExcept_mem hvs hv
    exact fallback_variation_shape ha

theorem C1_witness :
    validRequest rC1w = true ∧
    (okD (_create_fallback_variations rC1w ids0)).length = rC1w.variants :=
  ⟨by decide, (C1_fallback_count_and_shape rC1w ids0 (by decide) (by decide)).1⟩

theorem C1_counterexample :
    validRequest rC1c = true ∧
    _create_fallback_variations rC1c ids0 =
      Except.error (("IndexError: list index out of range").toList) :=
  ⟨by decide, rfl⟩

/-- C2 (amended): every text field of every record built by the fallback
generator respects the PLATFORM_LIMITS maximum declared for its field name
(the AI-path `_format_variation` enforces no such bound). -/
theorem C2_fallback_within_limits (r : AdGenerationRequest) (ids : Nat → List Char)
    (vs : List Variation) (h : _create_fallback_variations r ids = Except.ok vs) :
    ∀ v ∈ vs, withinLimitsB r.platform v = true := by
  intro v hv
  obtain ⟨a, _, ha⟩ := mapExcept_mem h hv
  exact fallback_variation_within ha

theorem C2_witness :
    withinLimitsB rC2w.platform
      ((okD (_create_fallback_variations rC2w ids0)).get ⟨0, by decide⟩) = true :=
  C2_fallback_within_limits rC2w ids0 (okD (_create_fallback_variations rC2w ids0)) rfl
    _ (List.get_mem _ _ _)

theorem C2_counterexample :
    withinLimitsB PlatformType.tiktok
      (_format_variation aiVarData PlatformType.tiktok (("Casual").toList)
        (("abcd1234").toList) 0) = false ∧
    (PLATFORM_LIMITS PlatformType.tiktok).fields = [((("caption").toList), 100, 1)] :=
  ⟨by decide, rfl⟩

/-- C3 (amended): `_truncate` returns empty input unchanged, returns text of
length at most the limit unchanged, and otherwise cuts the length-limit
prefix at its last space (trimming whitespace) whenever that space sits at a
positive index, hard-cutting and trimming both when the prefix has no space
and when its only space sits at index 0; the result never exceeds the limit,
and the three specified sample evaluations hold. -/
theorem C3_truncate_characterization :
    (∀ (text : List Char) (n : Nat),
      (text = [] → _truncate text n = []) ∧
      (text.length ≤ n → _truncate text n = text) ∧
      (n < text.length →
        (∀ i, lastIdxOf ' ' (text.take n) = some i → 0 < i →
          _truncate text n = pyStrip ((text.take n).take i)) ∧
        (lastIdxOf ' ' (text.take n) = some 0 →
          _truncate text n = pyStrip (text.take n)) ∧
        (lastIdxOf ' ' (text.take n) = none →
          _truncate text n = pyStrip (text.take n))) ∧
      (_truncate text n).length ≤ n) ∧
    _truncate (("This is a test").toList) 8 = ("This is").toList ∧
    _truncate (("Short").toList) 10 = ("Short").toList ∧
    _truncate (("").toList) 10 = ("").toList := by
  refine ⟨fun text n => ⟨?_, ?_, ?_, _truncate_length_le text n⟩, by decide, by decide, by decide⟩
  · intro h
    subst h
    simp [_truncate]
  · intro h
    simp [_truncate, h]
  · intro hlt
    have hnot : ¬ text.length ≤ n := by omega
    refine ⟨?_, ?_, ?_⟩
    · intro i hi h0
      simp only [_truncate, hnot, if_false, hi, h0, if_true]
    · intro hi
      simp only [_truncate, hnot, if_false, hi]
      simp
    · intro hi
      simp only [_truncate, hnot, if_false, hi]

theorem C3_witness :
    _truncate (("Hello brave new world").toList) 9 =
      pyStrip ((((("Hello brave new world").toList).take 9)).take 5) :=
  ((C3_truncate_characterization.1 (("Hello brave new world").toList) 9).2.2.1
    (by decide)).1 5 (by decide) (by decide)

theorem C3_counterexample :
    _truncate ((" abcdefghij").toList) 3 = ("ab").toList ∧
    truncate_as_specified ((" abcdefghij").toList) 3 = [] ∧
    ("ab").toList ≠ ([] : List Char) :=
  ⟨by decide, by decide, by decide⟩

/-- C4 (amended): a missing content field and an undecodable extraction both
route the parser to the fallback generator, but a decodable reply whose
"variations" key is absent or an empty array yields the empty list, not the
fallback output. -/
theorem C4_parse_error_routing (r : AdGenerationRequest) (ids : Nat → List Char)
    (decode : List Char → Except Unit JVal) (content : List Char)
    (fs : List (List Char × JVal)) :
    (_parse_ai_response r ids decode none = _create_fallback_variations r ids) ∧
    (decode (extract_json_content content) = Except.error () →
      _parse_ai_response r ids decode (some content) = _create_fallback_variations r ids) ∧
    (decode (extract_json_content content) = Except.ok (JVal.jobj fs) →
      jlookup (("variations").toList) fs = none →
      _parse_ai_response r ids decode (some content) = Except.ok []) ∧
    (decode (extract_json_content content) = Except.ok (JVal.jobj fs) →
      jlookup (("variations").toList) fs = some (JVal.jarr []) →
      _parse_ai_response r ids decode (some content) = Except.ok []) := by
  refine ⟨rfl, ?_, ?_, ?_⟩
  · intro h
    simp [_parse_ai_response, h]
  · intro h hl
    simp only [_parse_ai_response, h, getVariationsSlice, hl]
    simp [formatAll]
  · intro h hl
    simp only [_parse_ai_response, h, getVariationsSlice, hl]
    simp [formatAll]

theorem C4_witness :
    _parse_ai_response rC4 ids0 decErr (some cnt0) = _create_fallback_variations rC4 ids0 :=
  (C4_parse_error_routing rC4 ids0 decErr cnt0 []).2.1 rfl

theorem C4_counterexample :
    validRequest rC4 = true ∧
    generate_ad_variations true rC4 ids0 (Except.ok (some cnt0)) decEmptyObj = Except.ok [] ∧
    Except.ok [] ≠ _create_fallback_variations rC4 ids0 ∧
    (okD (_create_fallback_variations rC4 ids0)).length = 3 := by
  refine ⟨by decide, rfl, ?_, by decide⟩
  intro h
  exact absurd (congrArg (fun e => (okD e).length) h) (by decide)

/-- C5 (amended): the fallback benefit component is the text before the first
period when the description contains one, and is the literal "Get more for
less" (not the description itself) when it does not. -/
theorem C5_benefit_derivation (desc : List Char) :
    ('.' ∈ desc → fallback_benefit desc = desc.takeWhile (fun c => !(c = '.'))) ∧
    ('.' ∉ desc → fallback_benefit desc = ("Get more for less").toList) := by
  constructor
  · intro h
    simp only [fallback_benefit, h, if_true]
    exact splitOn_headD_eq_takeWhile desc
  · intro h
    simp [fallback_benefit, h]

theorem C5_witness :
    fallback_benefit (("Nice. Deal").toList) =
      ((("Nice. Deal").toList).takeWhile (fun c => !(c = '.'))) :=
  (C5_benefit_derivation (("Nice. Deal").toList)).1 (by decide)

theorem C5_counterexample :
    fallback_benefit (("Great product no dot here").toList) = ("Get more for less").toList ∧
    fallback_benefit (("Great product no dot here").toList) ≠ ("Great product no dot here").toList ∧
    '.' ∉ (("Great product no dot here").toList) :=
  ⟨by decide, by decide, by decide⟩

/-- C6: the offer extractor returns the leftmost match of the dollar-amount
or number-month-down pattern and the literal default when none occurs, as
witnessed on the three specified sample descriptions. -/
theorem C6_extract_offer_examples :
    containsSub (("$299").toList)
      (_extract_offer (("Great product for $299.99 with free shipping").toList)) = true ∧
    containsSub (("99").toList)
      (_extract_offer (("Available for $99/month with financing").toList)) = true ∧
    containsSub (("month").toList)
      (_extract_offer (("Available for $99/month with financing").toList)) = true ∧
    _extract_offer (("Great product with amazing features").toList) =
      ("Special pricing available").toList :=
  ⟨by decide, by decide, by decide, by decide⟩

/-- C7 (amended): the classifier lower-cases both inputs and tests the
automotive keyword set first and the e-commerce set second, first match
winning and falling through to the general context; an e-commerce keyword
selects the e-commerce context only when no automotive keyword occurs, as
the sample inputs illustrate. -/
theorem C7_business_context_order (name desc : List Char) :
    (autoKeywordHit name desc = true →
      _get_business_context name desc = AUTOMOTIVE_CONTEXT) ∧
    (autoKeywordHit name desc = false → ecomKeywordHit name desc = true →
      _get_business_context name desc = ECOMMERCE_CONTEXT) ∧
    (autoKeywordHit name desc = false → ecomKeywordHit name desc = false →
      _get_business_context name desc = GENERAL_CONTEXT) ∧
    _get_business_context (("2019 Toyota Camry").toList)
      (("Clean CarFax, low miles").toList) = AUTOMOTIVE_CONTEXT ∧
    _get_business_context (("iPhone Case").toList)
      (("Buy online with free shipping").toList) = ECOMMERCE_CONTEXT ∧
    _get_business_context (("Widget").toList)
      (("A quality item, nicely made").toList) = GENERAL_CONTEXT := by
  refine ⟨?_, ?_, ?_, by decide, by decide, by decide⟩
  · intro h
    simp [_get_business_context, h]
  · intro h1 h2
    simp [_get_business_context, h1, h2]
  · intro h1 h2
    simp [_get_business_context, h1, h2]

theorem C7_witness :
    _get_business_context (("Toyota Sales").toList)
      (("Quality vehicles at low prices").toList) = AUTOMOTIVE_CONTEXT :=
  (C7_business_context_order (("Toyota Sales").toList)
    (("Quality vehicles at low prices").toList)).1 (by decide)

theorem C7_counterexample :
    _get_business_context (("Gadgets").toList) (("buy a used car today").toList) =
      AUTOMOTIVE_CONTEXT ∧
    containsSub (("buy").toList) (lowerList (("buy a used car today").toList)) = true ∧
    AUTOMOTIVE_CONTEXT ≠ ECOMMERCE_CONTEXT :=
  ⟨by decide, by decide, by decide⟩

/-- C8 (amended): with no credential configured the orchestrator goes
straight to the fallback generator, and with a credential any provider
exception makes its result equal to the fallback generator's output for the
same request (so an exception can reach the caller only when the fallback
itself raises). -/
theorem C8_orchestrator_fallback (r : AdGenerationRequest) (ids : Nat → List Char)
    (decode : List Char → Except Unit JVal)
    (po : Except (List Char) (Option (List Char))) :
    (generate_ad_variations false r ids po decode = _create_fallback_variations r ids) ∧
    (∀ e, po = Except.error e →
      generate_ad_variations true r ids po decode = _create_fallback_variations r ids) := by
  constructor
  · rfl
  · intro e he
    subst he
    rfl

theorem C8_witness :
    generate_ad_variations true rC8w ids0 (Except.error (("timeout").toList)) decEmptyObj =
      _create_fallback_variations rC8w ids0 :=
  (C8_orchestrator_fallback rC8w ids0 decEmptyObj
    (Except.error (("timeout").toList))).2 (("timeout").toList) rfl

theorem C8_counterexample :
    validRequest rC8c = true ∧
    generate_ad_variations true rC8c ids0 (Except.error (("ReadTimeout").toList)) decEmptyObj =
      Except.error (("IndexError: list index out of range").toList) :=
  ⟨by decide, rfl⟩

/-- C9: the fallback generator is claimed total on validated requests, but a
validated tiktok request whose name is a single space makes the caption
derivation `request.name.split()[0]` raise IndexError. -/
theorem C9_fallback_raises :
    validRequest rC9 = true ∧
    _create_fallback_variations rC9 ids0 =
      Except.error (("IndexError: list index out of range").toList) :=
  ⟨by decide, rfl⟩

/-- C10: any two records of one fallback call agree on every field other
than the generated id: the derived components depend only on the request,
never on the variant index. -/
theorem C10_variants_identical_up_to_id (r : AdGenerationRequest) (ids : Nat → List Char)
    (j k : Nat) (hj : j < (okD (_create_fallback_variations r ids)).length)
    (hk : k < (okD (_create_fallback_variations r ids)).length) :
    dropId ((okD (_create_fallback_variations r ids)).getD j []) =
    dropId ((okD (_create_fallback_variations r ids)).getD k []) := by
  cases hres : _create_fallback_variations r ids with
  | error e =>
    rw [hres] at hj
    simp [okD] at hj
  | ok vs =>
    rw [hres] at hj hk
    simp only [okD] at hj hk ⊢
    have hlen : vs.length = r.variants := by
      rw [mapExcept_length hres, List.length_range]
    have hjr : j < (List.range r.variants).length := by
      rw [List.length_range]; omega
    have hkr : k < (List.range r.variants).length := by
      rw [List.length_range]; omega
    have hgj := mapExcept_ok_get hres j hjr hj
    have hgk := mapExcept_ok_get hres k hkr hk
    rw [List.getD_eq_getElem _ _ hj, List.getD_eq_getElem _ _ hk]
    simp only [List.get_eq_getElem] at hgj hgk
    exact fallback_variation_dropId hgj hgk

theorem C10_witness :
    dropId ((okD (_create_fallback_variations rC10w ids0)).getD 0 []) =
    dropId ((okD (_create_fallback_variations rC10w ids0)).getD 1 []) :=
  C10_variants_identical_up_to_id rC10w ids0 0 1 (by decide) (by decide)
